import Mathlib

/-!
Verification development for the `ImageUploader` React component of the
image-resizer frontend (`src/frontend/image-resizer-frontend/src/ImageUploader.tsx`,
second revision of the file, the polling-based one).

The component is shallowly embedded as follows.

* `ComponentState` holds the `useState` hooks plus the `pollIntervalRef` ref.
  The ref is modelled as `pollInterval : Option Nat`: `none` when
  `pollIntervalRef.current === null`, `some t` when a recurring timer with
  period `t` milliseconds is installed (`setInterval(cb, t)`).
* Network effects are modelled explicitly: handlers take the environment's
  responses as arguments and return the new state together with the list of
  network events (`NetEvent`) they produce.
* The polling loop (`pollForProcessedImage` driven by `setInterval`) is
  modelled by `runPoll`, a fold of `issueAndHandle` over the list of poll
  responses supplied by the environment.  `issueAndHandle` models one
  interval firing: if the timer is still installed, the tick issues the next
  GET (incrementing the closure variable `attempt` as `++attempt` does) and
  its response is then handled by the embedded `.then`/`.catch` handlers.
  Following the spec's single-threaded concurrency model, each response is
  processed before the next tick fires (overlapping slow responses are an
  explicitly accepted out-of-model edge case); once the timer has been
  cleared (`clearInterval`), a tick never fires, which is what the
  `pollInterval.isSome` guard expresses.
* JavaScript numbers are modelled exactly on `Nat` (`Math.round(a/b)` becomes
  `jsRound a b`); strings are Lean `String`s; `x || y` on possibly-absent
  strings becomes `jsOrStr`.
-/

/-- Constant `POLL_INTERVAL_MS` from the source: the `setInterval` period. -/
def POLL_INTERVAL_MS : Nat := 3000

/-- Constant `MAX_POLL_ATTEMPTS` from the source: the poll attempt budget. -/
def MAX_POLL_ATTEMPTS : Nat := 15

/-- A selected `File`: name, MIME type and size in bytes. -/
structure FileData where
  name : String
  contentType : String
  size : Nat
deriving DecidableEq

/-- Response body of `POST {API_GATEWAY_URL}/generate-upload-url`. -/
structure PresignedUrlResponse where
  uploadUrl : String
  key : String
deriving DecidableEq

/-- An axios rejection: `isAxiosError e`, `e.response?.status`,
`e.response?.data?.message` and `e.message`. `status = none` models a
transport failure with no HTTP response (`e.response === undefined`). -/
structure AxiosErr where
  isAxiosError : Bool
  status : Option Nat
  dataMessage : Option String
  message : String
deriving DecidableEq

/-- Result of an awaited axios call: fulfilled with a value, or rejected. -/
inductive HttpResult (α : Type) where
  | ok (value : α)
  | err (e : AxiosErr)
deriving DecidableEq

/-- An `onUploadProgress` event: `loaded` bytes sent, `total` bytes expected
(absent when the transport does not know the total). -/
structure ProgressEvent where
  loaded : Nat
  total : Option Nat
deriving DecidableEq

/-- The component's state: the six `useState` hooks and the
`pollIntervalRef` ref (see the module comment for the timer encoding). -/
structure ComponentState where
  selectedFile : Option FileData
  uploadProgress : Nat
  isUploading : Bool
  errorMessage : Option String
  processedImageUrl : Option String
  statusMessage : String
  pollInterval : Option Nat
deriving DecidableEq

/-- The initial `useState` values of the component. -/
def initialState : ComponentState :=
  { selectedFile := none
    uploadProgress := 0
    isUploading := false
    errorMessage := none
    processedImageUrl := none
    statusMessage := ""
    pollInterval := none }

/-- Function `stopPolling`: clears the interval (if any) and nulls the ref; the net
effect on the modelled state is that no timer is installed. -/
def stopPolling (s : ComponentState) : ComponentState :=
  { s with pollInterval := none }

/-- JavaScript `haystack.includes(needle)` on strings. -/
def strIncludes (haystack needle : String) : Bool :=
  (List.range (haystack.length + 1)).any
    (fun i => (haystack.toList.drop i).take needle.length == needle.toList)

/-- The guard `!API_GATEWAY_URL || API_GATEWAY_URL === "YOUR_API_GATEWAY_INVOKE_URL"`
(`none` models `undefined`; the empty string is falsy too). -/
def apiUrlInvalid (u : Option String) : Bool :=
  match u with
  | none => true
  | some s => s == "" || s == "YOUR_API_GATEWAY_INVOKE_URL"

/-- The guard `!DESTINATION_BUCKET_BASE_URL || DESTINATION_BUCKET_BASE_URL.includes("your-destination-bucket-name")`. -/
def destUrlInvalid (u : Option String) : Bool :=
  match u with
  | none => true
  | some s => s == "" || strIncludes s "your-destination-bucket-name"

/-- JavaScript `a || b` where `a` is a possibly-absent string: `b` when `a`
is `undefined` or empty (falsy), `a` otherwise. -/
def jsOrStr (a : Option String) (b : String) : String :=
  match a with
  | none => b
  | some s => if s = "" then b else s

/-- JavaScript `Math.round (num / den)` for non-negative exact arithmetic:
`⌊num/den + 1/2⌋ = (2*num + den) / (2*den)` (round half up). -/
def jsRound (num den : Nat) : Nat :=
  (2 * num + den) / (2 * den)

/-- The `onUploadProgress` callback's computation:
`Math.round((progressEvent.loaded * 100) / (progressEvent.total ?? 1))`. -/
def progressPercent (ev : ProgressEvent) : Nat :=
  jsRound (ev.loaded * 100) (ev.total.getD 1)

/-- State effect of one `onUploadProgress` callback:
`setUploadProgress(percentCompleted)`. -/
def applyProgress (s : ComponentState) (ev : ProgressEvent) : ComponentState :=
  { s with uploadProgress := progressPercent ev }

/-- The environment's answer to one poll GET
(`GET {API_GATEWAY_URL}/get-processed-url?key=...`): the promise is either
fulfilled with `{ processedUrl }` or rejected with an axios error. -/
inductive PollResponse where
  | success (processedUrl : String)
  | failure (e : AxiosErr)
deriving DecidableEq

/-- The status text `pollForProcessedImage` sets when it issues a request. -/
def pollStatusMessage (attempt : Nat) : String :=
  "Processing... (Attempt " ++ toString attempt ++ "/" ++ toString MAX_POLL_ATTEMPTS ++ ")"

/-- The `.then` handler of the poll GET: store the presigned URL, set the
final status text and stop polling. -/
def pollOnSuccess (url : String) (s : ComponentState) : ComponentState :=
  stopPolling { s with processedImageUrl := some url, statusMessage := "Processing complete." }

/-- The `.catch` handler of the poll GET: at `attempt >= MAX_POLL_ATTEMPTS`
surface the timeout failure and stop; on an axios error whose status is not
404 surface the error and stop; on a 404 do nothing (the interval retries). -/
def pollOnError (attempt : Nat) (e : AxiosErr) (s : ComponentState) : ComponentState :=
  if MAX_POLL_ATTEMPTS ≤ attempt then
    stopPolling { s with
      errorMessage := some "Processing timed out or failed. Please try again."
      statusMessage := "" }
  else if e.isAxiosError && e.status != some 404 then
    stopPolling { s with
      errorMessage := some ("Error retrieving processed image: " ++ jsOrStr e.dataMessage e.message)
      statusMessage := "" }
  else
    s

/-- Handler of a poll response: dispatches to the `.then` or `.catch` arm.
This is exactly the code a poll response runs when it arrives, whatever the
component state is at that moment — the source installs no cancellation or
generation guard in these handlers. -/
def pollOnResponse (attempt : Nat) (r : PollResponse) (s : ComponentState) : ComponentState :=
  match r with
  | .success url => pollOnSuccess url s
  | .failure e => pollOnError attempt e s

/-- Poller bookkeeping: the component state, the `attempt` closure variable
of `handleUpload`'s polling block, and the log of issued poll requests
(each entry is the `attempt` value the request was issued with). -/
structure PollerSt where
  comp : ComponentState
  attempt : Nat
  requests : List Nat
deriving DecidableEq

/-- One firing of the polling machinery with its response: if the interval
is still installed the tick runs `pollForProcessedImage(key, ++attempt)` —
set the status text, issue the GET (logged in `requests`) — and the
response is then handled; if the interval has been cleared, no tick fires
and nothing happens. -/
def issueAndHandle (p : PollerSt) (r : PollResponse) : PollerSt :=
  if p.comp.pollInterval.isSome then
    { comp := pollOnResponse (p.attempt + 1) r
        { p.comp with statusMessage := pollStatusMessage (p.attempt + 1) }
      attempt := p.attempt + 1
      requests := p.requests ++ [p.attempt + 1] }
  else
    p

/-- Start of the polling block in `handleUpload`: `let attempt = 0`, the
immediate `pollForProcessedImage(key, ++attempt)` call, and
`pollIntervalRef.current = setInterval(..., POLL_INTERVAL_MS)`.  The first
request itself is the first `issueAndHandle` step of a run (by the time any
response is handled the interval has been installed). -/
def beginPolling (c : ComponentState) : PollerSt :=
  { comp := { c with pollInterval := some POLL_INTERVAL_MS }
    attempt := 0
    requests := [] }

/-- A complete polling run: begin polling and consume the environment's
responses one per issued request (each response handled before the next
tick, per the spec's single-threaded model). -/
def runPoll (c : ComponentState) (resps : List PollResponse) : PollerSt :=
  resps.foldl issueAndHandle (beginPolling c)

/-- A "not found yet" poll response: an axios error with HTTP status 404. -/
def isNotFound : PollResponse → Bool
  | .failure e => e.isAxiosError && e.status == some 404
  | .success _ => false

/-- The canonical 404 rejection. -/
def notFound404 : AxiosErr :=
  { isAxiosError := true, status := some 404, dataMessage := none,
    message := "Request failed with status code 404" }

/-- The canonical not-found poll response. -/
def notFoundResp : PollResponse := .failure notFound404

/-- A network request the component can issue. The vestigial inline GET of
`handleUpload` targets the same `get-processed-url` endpoint for the key
(its template literal is mangled by markdown corruption in the scraped
source, but the request it issues is the step-3 GET for the key). -/
inductive NetRequest where
  | postGenerateUploadUrl (filename contentType : String)
  | putUpload (url contentType : String)
  | getProcessedUrl (key : String)
deriving DecidableEq

/-- A network event: a request is issued, or its response completes. -/
inductive NetEvent where
  | issue (r : NetRequest)
  | complete (r : NetRequest)
deriving DecidableEq

/-- Remove the first occurrence of `r` from a list. -/
def removeFirst (r : NetRequest) : List NetRequest → List NetRequest
  | [] => []
  | x :: xs => if x = r then xs else x :: removeFirst r xs

/-- The requests still outstanding (issued but not completed) after a
sequence of network events. -/
def outstandingAfter (evs : List NetEvent) : List NetRequest :=
  evs.foldl
    (fun acc ev =>
      match ev with
      | .issue r => acc ++ [r]
      | .complete r => removeFirst r acc)
    []

/-- Is this request a status-poll request (a GET of `get-processed-url`)? -/
def isGetProcessedUrl : NetRequest → Bool
  | .getProcessedUrl _ => true
  | _ => false

/-- Number of status-poll requests outstanding after the events. -/
def countOutstandingPolls (evs : List NetEvent) : Nat :=
  (outstandingAfter evs).countP (fun r => isGetProcessedUrl r)

/-- Is this event the issuing of a status-poll request? -/
def eventIsPollIssue : NetEvent → Bool
  | .issue (.getProcessedUrl _) => true
  | _ => false

/-- How far `handleUpload` got before its first suspension after the
polling block: an early `return` from a failed precondition, the `catch`
block after a rejected await, or a successful transfer about to poll. -/
inductive UploadPhaseResult where
  | earlyReturn (s : ComponentState)
  | failed (s : ComponentState)
  | transferred (key : String) (s : ComponentState)
deriving DecidableEq

/-- The component state carried by an `UploadPhaseResult`. -/
def resultState : UploadPhaseResult → ComponentState
  | .earlyReturn s => s
  | .failed s => s
  | .transferred _ s => s

/-- Did `handleUpload` end in its `catch` block? -/
def UploadPhaseResult.isFailed : UploadPhaseResult → Bool
  | .failed _ => true
  | _ => false

/-- The message computation of `handleUpload`'s `catch` block:
`error.response?.data?.message || error.message || "Upload failed."` for an
axios error, `error.message` for a plain `Error`. -/
def uploadCatchMessage (e : AxiosErr) : String :=
  if e.isAxiosError then jsOrStr e.dataMessage (jsOrStr (some e.message) "Upload failed.")
  else e.message

/-- State effect of `handleUpload`'s `catch` block: `setErrorMessage(message)`,
`setStatusMessage('')`, `setIsUploading(false)`, `stopPolling()`. -/
def catchBlock (e : AxiosErr) (s : ComponentState) : ComponentState :=
  stopPolling { s with
    errorMessage := some (uploadCatchMessage e)
    statusMessage := ""
    isUploading := false }

/-- Function `handleUpload`, modelled from invocation up to its first suspension
after the polling block starts (the `await` of the vestigial inline GET).
Arguments supply the environment's behaviour: the response to the
`generate-upload-url` POST, the progress events delivered during the PUT,
and the PUT's result.  Returns the phase outcome together with the network
events of this portion of the run, in program order.  On the successful
path the trailing two events are the first poll GET — issued, not awaited,
by `pollForProcessedImage(key, ++attempt)` — and the inline duplicate GET
issued by the leftover step-3 block before any poll response can have been
handled (its `await` is the suspension point where this model stops; the
subsequent polling is modelled by `runPoll`). -/
def handleUpload (cfg_api cfg_dest : Option String) (s : ComponentState)
    (presign : HttpResult PresignedUrlResponse)
    (progress : List ProgressEvent)
    (putRes : HttpResult Unit) : UploadPhaseResult × List NetEvent :=
  match s.selectedFile with
  | none => (.earlyReturn { s with errorMessage := some "Please select a file first." }, [])
  | some file =>
    if apiUrlInvalid cfg_api then
      (.earlyReturn { s with errorMessage := some "Frontend is not configured with API Gateway URL." }, [])
    else if destUrlInvalid cfg_dest then
      (.earlyReturn { s with errorMessage := some "Frontend is not configured with Destination Bucket URL." }, [])
    else
      let s1 : ComponentState :=
        { s with isUploading := true, errorMessage := none, processedImageUrl := none
                 uploadProgress := 0, statusMessage := "Getting upload URL..."
                 pollInterval := none }
      let postReq := NetRequest.postGenerateUploadUrl file.name file.contentType
      match presign with
      | .err e => (.failed (catchBlock e s1), [.issue postReq, .complete postReq])
      | .ok pr =>
        let s2 : ComponentState := { s1 with statusMessage := "Uploading..." }
        let putReq := NetRequest.putUpload pr.uploadUrl file.contentType
        let s3 := progress.foldl applyProgress s2
        match putRes with
        | .err e =>
          (.failed (catchBlock e s3),
            [.issue postReq, .complete postReq, .issue putReq, .complete putReq])
        | .ok _ =>
          (.transferred pr.key
            { s3 with statusMessage := "Upload successful! Getting processed image URL..." },
            [.issue postReq, .complete postReq, .issue putReq, .complete putReq,
             .issue (.getProcessedUrl pr.key), .issue (.getProcessedUrl pr.key)])

/-- Function `handleFileChange`: if the change event carries a file, replace the
selection, clear the outcome and progress, and stop any previous polling;
otherwise do nothing.  The handler issues no network request (second
component of the result), directly from its source body. -/
def handleFileChange (files : List FileData) (s : ComponentState) :
    ComponentState × List NetEvent :=
  match files with
  | [] => (s, [])
  | f :: _ =>
    (stopPolling { s with
        selectedFile := some f
        errorMessage := none
        processedImageUrl := none
        uploadProgress := 0
        statusMessage := "" }, [])

/-- A concrete selected file for witnesses. -/
def sampleFile : FileData := { name := "photo.jpg", contentType := "image/jpeg", size := 4 }

/-- A concrete component state with a file selected. -/
def sampleReadyState : ComponentState := { initialState with selectedFile := some sampleFile }

/-- A concrete presign response for witnesses. -/
def samplePresign : PresignedUrlResponse := { uploadUrl := "https://store/x", key := "abc123" }

/-- A concrete valid backend base URL. -/
def sampleApiUrl : Option String := some "https://api.example.com/prod"

/-- A concrete valid destination bucket base URL. -/
def sampleDestUrl : Option String := some "https://bucket.example.com"

/-- A component state mid-poll, for concrete instantiations. -/
def pollingState : ComponentState :=
  { sampleReadyState with isUploading := true, pollInterval := some POLL_INTERVAL_MS }

/-- A concrete non-404 rejection (an HTTP 500), for concrete instantiations. -/
def err500 : AxiosErr :=
  { isAxiosError := true, status := some 500, dataMessage := none
    message := "Network Error" }

/-- A concrete non-axios transfer failure, for concrete instantiations. -/
def putBroke : AxiosErr :=
  { isAxiosError := false, status := none, dataMessage := none
    message := "upload broke" }

/-! ### Helper lemmas about the polling run -/

/-- Once the interval has been cleared, a tick never fires. -/
theorem issueAndHandle_stopped (p : PollerSt) (r : PollResponse)
    (h : p.comp.pollInterval = none) : issueAndHandle p r = p := by
  unfold issueAndHandle
  rw [h]
  rfl

/-- A run that reaches a stopped poller stays put: no request, no change. -/
theorem foldl_issueAndHandle_stopped (l : List PollResponse) (p : PollerSt)
    (h : p.comp.pollInterval = none) : l.foldl issueAndHandle p = p := by
  induction l with
  | nil => rfl
  | cons r t ih => rw [List.foldl_cons, issueAndHandle_stopped p r h, ih]

/-- The poller's invariant: the attempt counter is within budget, and
strictly below it while the timer is still installed. -/
def PollInv (p : PollerSt) : Prop :=
  p.attempt ≤ MAX_POLL_ATTEMPTS ∧
    (p.comp.pollInterval.isSome = true → p.attempt < MAX_POLL_ATTEMPTS)

theorem pollInv_step (p : PollerSt) (r : PollResponse) (h : PollInv p) :
    PollInv (issueAndHandle p r) := by
  obtain ⟨h1, h2⟩ := h
  unfold issueAndHandle
  by_cases hs : p.comp.pollInterval.isSome = true
  · have hlt : p.attempt < MAX_POLL_ATTEMPTS := h2 hs
    simp only [hs, if_true]
    constructor
    · exact hlt
    · intro hactive
      by_contra hge
      push_neg at hge
      have h15 : MAX_POLL_ATTEMPTS ≤ p.attempt + 1 := hge
      cases r with
      | success url =>
        simp [pollOnResponse, pollOnSuccess, stopPolling] at hactive
      | failure e =>
        simp only [pollOnResponse, pollOnError, h15, if_true] at hactive
        simp [stopPolling] at hactive
  · simp only [hs, if_false]
    exact ⟨h1, h2⟩

theorem pollInv_foldl (l : List PollResponse) (p : PollerSt) (h : PollInv p) :
    PollInv (l.foldl issueAndHandle p) := by
  induction l generalizing p with
  | nil => exact h
  | cons r t ih => exact ih (issueAndHandle p r) (pollInv_step p r h)

theorem pollInv_begin (c : ComponentState) : PollInv (beginPolling c) := by
  refine ⟨Nat.zero_le _, fun _ => ?_⟩
  show (0 : Nat) < MAX_POLL_ATTEMPTS
  decide

/-- In every run, the attempt counter never exceeds the budget. -/
theorem runPoll_attempt_le (c : ComponentState) (resps : List PollResponse) :
    (runPoll c resps).attempt ≤ MAX_POLL_ATTEMPTS :=
  (pollInv_foldl resps (beginPolling c) (pollInv_begin c)).1

/-- The request log is always exactly `[1, 2, ..., attempt]`. -/
def ReqInv (p : PollerSt) : Prop :=
  p.requests = (List.range p.attempt).map (fun i => i + 1)

theorem reqInv_step (p : PollerSt) (r : PollResponse) (h : ReqInv p) :
    ReqInv (issueAndHandle p r) := by
  unfold issueAndHandle
  by_cases hs : p.comp.pollInterval.isSome = true
  · simp only [hs, if_true]
    unfold ReqInv at h ⊢
    simp only [h, List.range_succ, List.map_append, List.map_cons, List.map_nil]
  · simp only [hs, if_false]
    exact h

theorem reqInv_foldl (l : List PollResponse) (p : PollerSt) (h : ReqInv p) :
    ReqInv (l.foldl issueAndHandle p) := by
  induction l generalizing p with
  | nil => exact h
  | cons r t ih => exact ih (issueAndHandle p r) (reqInv_step p r h)

/-- In every run the issued requests carry the attempt numbers
`1, 2, ..., attempt`, in order: the counter is incremented exactly once per
issued request. -/
theorem runPoll_requests (c : ComponentState) (resps : List PollResponse) :
    (runPoll c resps).requests =
      (List.range (runPoll c resps).attempt).map (fun i => i + 1) := by
  have hbegin : ReqInv (beginPolling c) := by
    unfold ReqInv beginPolling
    rfl
  exact reqInv_foldl resps (beginPolling c) hbegin

/-- Each step only appends to the request log. -/
theorem foldl_requests_extend (l : List PollResponse) (p : PollerSt) :
    ∃ t, (l.foldl issueAndHandle p).requests = p.requests ++ t := by
  induction l generalizing p with
  | nil => exact ⟨[], by simp⟩
  | cons r rest ih =>
    rw [List.foldl_cons]
    obtain ⟨t, ht⟩ := ih (issueAndHandle p r)
    unfold issueAndHandle at ht ⊢
    by_cases hs : p.comp.pollInterval.isSome = true
    · simp only [hs, if_true] at ht ⊢
      exact ⟨[p.attempt + 1] ++ t, by simp [ht]⟩
    · simp only [hs, if_false] at ht ⊢
      exact ⟨t, ht⟩

/-- A 404 response handled strictly below the attempt budget leaves the
poller running: only the status text and the counter change. -/
theorem issueAndHandle_notFound_continue (p : PollerSt) (e : AxiosErr)
    (hsome : p.comp.pollInterval.isSome = true)
    (hax : e.isAxiosError = true) (h404 : e.status = some 404)
    (hlt : p.attempt + 1 < MAX_POLL_ATTEMPTS) :
    (issueAndHandle p (PollResponse.failure e)).attempt = p.attempt + 1 ∧
    (issueAndHandle p (PollResponse.failure e)).comp.pollInterval = p.comp.pollInterval ∧
    (issueAndHandle p (PollResponse.failure e)).comp.errorMessage = p.comp.errorMessage ∧
    (issueAndHandle p (PollResponse.failure e)).comp.processedImageUrl = p.comp.processedImageUrl := by
  unfold issueAndHandle
  rw [if_pos hsome]
  simp only [pollOnResponse, pollOnError, hax, h404]
  rw [if_neg (by omega)]
  simp

/-- A rejected poll response at or above the attempt budget: the timeout
failure is surfaced and the timer is cleared. -/
theorem issueAndHandle_failure_timeout (p : PollerSt) (e : AxiosErr)
    (hsome : p.comp.pollInterval.isSome = true)
    (hge : MAX_POLL_ATTEMPTS ≤ p.attempt + 1) :
    (issueAndHandle p (PollResponse.failure e)).attempt = p.attempt + 1 ∧
    (issueAndHandle p (PollResponse.failure e)).comp.pollInterval = none ∧
    (issueAndHandle p (PollResponse.failure e)).comp.errorMessage =
      some "Processing timed out or failed. Please try again." ∧
    (issueAndHandle p (PollResponse.failure e)).comp.statusMessage = "" := by
  unfold issueAndHandle
  rw [if_pos hsome]
  simp only [pollOnResponse, pollOnError]
  rw [if_pos hge]
  simp [stopPolling]

/-- A run of consecutive not-found responses while the timer is installed:
below the budget the poller keeps going with the counter advanced and the
outcome untouched; the moment the counter reaches the budget it stops with
the timeout failure surfaced. -/
theorem notFound_run (l : List PollResponse) (hl : ∀ r ∈ l, isNotFound r = true)
    (p : PollerSt) (hp : p.comp.pollInterval = some POLL_INTERVAL_MS)
    (hb : p.attempt + l.length ≤ MAX_POLL_ATTEMPTS) :
    (l.foldl issueAndHandle p).attempt = p.attempt + l.length ∧
    (p.attempt + l.length < MAX_POLL_ATTEMPTS →
      (l.foldl issueAndHandle p).comp.pollInterval = some POLL_INTERVAL_MS ∧
      (l.foldl issueAndHandle p).comp.errorMessage = p.comp.errorMessage ∧
      (l.foldl issueAndHandle p).comp.processedImageUrl = p.comp.processedImageUrl) ∧
    (p.attempt + l.length = MAX_POLL_ATTEMPTS → l ≠ [] →
      (l.foldl issueAndHandle p).comp.pollInterval = none ∧
      (l.foldl issueAndHandle p).comp.errorMessage =
        some "Processing timed out or failed. Please try again." ∧
      (l.foldl issueAndHandle p).comp.statusMessage = "") := by
  induction l generalizing p with
  | nil =>
    refine ⟨by simp, fun _ => ⟨hp, rfl, rfl⟩, fun _ hne => absurd rfl hne⟩
  | cons r t ih =>
    have hr : isNotFound r = true := hl r (List.mem_cons_self r t)
    have ht : ∀ x ∈ t, isNotFound x = true := fun x hx => hl x (List.mem_cons_of_mem r hx)
    obtain ⟨e, he, hax, h404⟩ :
        ∃ e, r = PollResponse.failure e ∧ e.isAxiosError = true ∧ e.status = some 404 := by
      cases r with
      | success url => simp [isNotFound] at hr
      | failure e =>
        simp only [isNotFound, Bool.and_eq_true, beq_iff_eq] at hr
        exact ⟨e, rfl, hr.1, hr.2⟩
    subst he
    have hsome : p.comp.pollInterval.isSome = true := by rw [hp]; rfl
    rw [List.foldl_cons]
    by_cases hmax : MAX_POLL_ATTEMPTS ≤ p.attempt + 1
    · -- the budget is reached at this very response: timeout, and `t = []`
      have htlen : t.length = 0 := by
        simp only [List.length_cons] at hb
        omega
      have htnil : t = [] := List.length_eq_zero.mp htlen
      subst htnil
      rw [List.foldl_nil]
      obtain ⟨ja, jint, jerr, jstat⟩ := issueAndHandle_failure_timeout p e hsome hmax
      refine ⟨by rw [ja]; simp, fun hlt => ?_, fun _ _ => ⟨jint, jerr, jstat⟩⟩
      exfalso
      simp only [List.length_cons, List.length_nil] at hlt
      omega
    · -- a 404 strictly below the budget: the poller continues
      push_neg at hmax
      obtain ⟨ja, jint, jerr, jurl⟩ := issueAndHandle_notFound_continue p e hsome hax h404 hmax
      have hq : (issueAndHandle p (PollResponse.failure e)).comp.pollInterval =
          some POLL_INTERVAL_MS := by rw [jint, hp]
      have hb2 : (issueAndHandle p (PollResponse.failure e)).attempt + t.length ≤
          MAX_POLL_ATTEMPTS := by
        rw [ja]
        simp only [List.length_cons] at hb
        omega
      obtain ⟨ia, icont, itime⟩ := ih ht (issueAndHandle p (PollResponse.failure e)) hq hb2
      refine ⟨?_, ?_, ?_⟩
      · rw [ia, ja]
        simp only [List.length_cons]
        omega
      · intro hlt
        have hlt2 : (issueAndHandle p (PollResponse.failure e)).attempt + t.length <
            MAX_POLL_ATTEMPTS := by
          rw [ja]
          simp only [List.length_cons] at hlt
          omega
        obtain ⟨k1, k2, k3⟩ := icont hlt2
        exact ⟨k1, by rw [k2, jerr], by rw [k3, jurl]⟩
      · intro heq hne
        have htne : t ≠ [] := by
          intro htnil
          subst htnil
          simp only [List.length_cons, List.length_nil] at heq
          omega
        have heq2 : (issueAndHandle p (PollResponse.failure e)).attempt + t.length =
            MAX_POLL_ATTEMPTS := by
          rw [ja]
          simp only [List.length_cons] at heq
          omega
        exact itime heq2 htne


/-! ### Claim theorems -/

/-- C1: in every run of the poller the attempt counter never exceeds
`MAX_POLL_ATTEMPTS` (15); after 15 consecutive not-found responses the
poller is in the timed-out state — the user-visible timeout failure is set,
the status text cleared, the recurring timer stopped — and exactly the
requests for attempts 1..15 were issued, no 16th, whatever responses the
environment would supply afterwards.  (The source keeps no explicit
state-machine enum; `TimedOut` is the timeout failure message surfaced with
the timer cleared.) -/
theorem C1_attempt_bounded_timeout (c : ComponentState)
    (resps rest notFounds : List PollResponse)
    (hlen : notFounds.length = MAX_POLL_ATTEMPTS)
    (hnf : ∀ r ∈ notFounds, isNotFound r = true) :
    (runPoll c resps).attempt ≤ MAX_POLL_ATTEMPTS ∧
    (runPoll c (notFounds ++ rest)).comp.errorMessage =
      some "Processing timed out or failed. Please try again." ∧
    (runPoll c (notFounds ++ rest)).comp.statusMessage = "" ∧
    (runPoll c (notFounds ++ rest)).comp.pollInterval = none ∧
    (runPoll c (notFounds ++ rest)).requests =
      (List.range MAX_POLL_ATTEMPTS).map (fun i => i + 1) := by
  have h1 := runPoll_attempt_le c resps
  have hbegin_int : (beginPolling c).comp.pollInterval = some POLL_INTERVAL_MS := rfl
  have hbegin_att : (beginPolling c).attempt = 0 := rfl
  have hb : (beginPolling c).attempt + notFounds.length ≤ MAX_POLL_ATTEMPTS := by
    rw [hbegin_att, hlen]
    omega
  obtain ⟨ha, _, htime⟩ := notFound_run notFounds hnf (beginPolling c) hbegin_int hb
  have heq : (beginPolling c).attempt + notFounds.length = MAX_POLL_ATTEMPTS := by
    rw [hbegin_att, hlen]
    omega
  have hne : notFounds ≠ [] := by
    intro h
    rw [h] at hlen
    simp [MAX_POLL_ATTEMPTS] at hlen
  obtain ⟨k1, k2, k3⟩ := htime heq hne
  have hsplit : runPoll c (notFounds ++ rest) =
      rest.foldl issueAndHandle (notFounds.foldl issueAndHandle (beginPolling c)) := by
    unfold runPoll
    rw [List.foldl_append]
  have hstop : rest.foldl issueAndHandle (notFounds.foldl issueAndHandle (beginPolling c)) =
      notFounds.foldl issueAndHandle (beginPolling c) :=
    foldl_issueAndHandle_stopped rest _ k1
  have hatt : (runPoll c (notFounds ++ rest)).attempt = MAX_POLL_ATTEMPTS := by
    rw [hsplit, hstop, ha, hbegin_att, hlen]
    omega
  refine ⟨h1, ?_, ?_, ?_, ?_⟩
  · rw [hsplit, hstop]
    exact k2
  · rw [hsplit, hstop]
    exact k3
  · rw [hsplit, hstop]
    exact k1
  · have hreq := runPoll_requests c (notFounds ++ rest)
    rw [hatt] at hreq
    exact hreq

/-- C1 witness: a concrete run from the initial state — one arbitrary-length
probe run, and 15 concrete 404 responses followed by 5 more the poller never
asks for. -/
theorem C1_attempt_bounded_timeout_witness :
    (runPoll initialState [notFoundResp]).attempt ≤ MAX_POLL_ATTEMPTS ∧
    (runPoll initialState
      (List.replicate 15 notFoundResp ++ List.replicate 5 notFoundResp)).comp.errorMessage =
      some "Processing timed out or failed. Please try again." ∧
    (runPoll initialState
      (List.replicate 15 notFoundResp ++ List.replicate 5 notFoundResp)).comp.statusMessage = "" ∧
    (runPoll initialState
      (List.replicate 15 notFoundResp ++ List.replicate 5 notFoundResp)).comp.pollInterval = none ∧
    (runPoll initialState
      (List.replicate 15 notFoundResp ++ List.replicate 5 notFoundResp)).requests =
      (List.range MAX_POLL_ATTEMPTS).map (fun i => i + 1) :=
  C1_attempt_bounded_timeout initialState [notFoundResp] (List.replicate 5 notFoundResp)
    (List.replicate 15 notFoundResp) (by decide)
    (by
      intro r hr
      rw [List.eq_of_mem_replicate hr]
      decide)

/-- C5: `POLL_INTERVAL_MS` is 3000 and `MAX_POLL_ATTEMPTS` is 15; polling
begins with `attempt = 0` and the 3000 ms recurring timer installed; the
first response consumed corresponds to exactly one immediately-issued
request carrying attempt number 1; over any run the issued requests are
`1, 2, ..., attempt` — the counter is incremented exactly once per issued
request — and never more than 15 of them. -/
theorem C5_poll_schedule (c : ComponentState) (r : PollResponse) (resps : List PollResponse) :
    POLL_INTERVAL_MS = 3000 ∧
    MAX_POLL_ATTEMPTS = 15 ∧
    (beginPolling c).attempt = 0 ∧
    (beginPolling c).comp.pollInterval = some POLL_INTERVAL_MS ∧
    (runPoll c [r]).requests = [1] ∧
    (runPoll c (r :: resps)).requests.head? = some 1 ∧
    (runPoll c (r :: resps)).requests =
      (List.range (runPoll c (r :: resps)).attempt).map (fun i => i + 1) ∧
    (runPoll c (r :: resps)).attempt ≤ MAX_POLL_ATTEMPTS := by
  have hone : (runPoll c [r]).requests = [1] := by
    show (issueAndHandle (beginPolling c) r).requests = [1]
    unfold issueAndHandle
    rw [if_pos (by rfl)]
    rfl
  refine ⟨rfl, rfl, rfl, rfl, hone, ?_, runPoll_requests c (r :: resps),
    runPoll_attempt_le c (r :: resps)⟩
  have hbase : (issueAndHandle (beginPolling c) r).requests = [1] := hone
  have hrun : runPoll c (r :: resps) =
      resps.foldl issueAndHandle (issueAndHandle (beginPolling c) r) := by
    unfold runPoll
    rw [List.foldl_cons]
  obtain ⟨t, ht⟩ := foldl_requests_extend resps (issueAndHandle (beginPolling c) r)
  rw [hrun, ht, hbase]
  rfl

/-- C2 (bug evidence): after `stopPolling` the timer is cleared and no
further poll request is ever issued; but the source's response handlers
carry no cancellation guard, so an in-flight response that arrives after
cancellation still mutates the Outcome — here a success response received
after cancellation overwrites `processedImageUrl` and the status text,
where the claim requires it to be discarded. -/
theorem C2_late_response_mutates_outcome :
    (stopPolling sampleReadyState).pollInterval = none ∧
    (stopPolling sampleReadyState).processedImageUrl = none ∧
    (([notFoundResp, PollResponse.success "https://store/late"].foldl issueAndHandle
      { comp := stopPolling sampleReadyState, attempt := 1, requests := [1] }).requests = [1]) ∧
    (pollOnResponse 1 (PollResponse.success "https://store/abc123-resized")
      (stopPolling sampleReadyState)).processedImageUrl = some "https://store/abc123-resized" ∧
    (pollOnResponse 1 (PollResponse.success "https://store/abc123-resized")
      (stopPolling sampleReadyState)).statusMessage = "Processing complete." :=
  ⟨rfl, rfl, rfl, rfl, rfl⟩

/-- C3: a poll rejection other than not-found (an axios error whose status
is not 404, e.g. an HTTP 500, or a transport failure with no response)
while the attempt counter is below the budget stops the poller immediately:
the error is surfaced, the status text cleared, the timer stopped, and no
further poll request is ever issued — the error is never retried. -/
theorem C3_non404_error_stops (s : ComponentState) (a : Nat) (e : AxiosErr)
    (ha : a < MAX_POLL_ATTEMPTS) (hax : e.isAxiosError = true)
    (h404 : e.status ≠ some 404) :
    (pollOnResponse a (PollResponse.failure e) s).errorMessage =
      some ("Error retrieving processed image: " ++ jsOrStr e.dataMessage e.message) ∧
    (pollOnResponse a (PollResponse.failure e) s).statusMessage = "" ∧
    (pollOnResponse a (PollResponse.failure e) s).pollInterval = none ∧
    ∀ (att : Nat) (reqs : List Nat) (rest : List PollResponse),
      (rest.foldl issueAndHandle
        { comp := pollOnResponse a (PollResponse.failure e) s
          attempt := att, requests := reqs }).requests = reqs := by
  have hcond : (e.isAxiosError && e.status != some 404) = true := by
    rw [hax]
    simp only [Bool.true_and, bne_iff_ne, ne_eq]
    exact h404
  have hres : pollOnResponse a (PollResponse.failure e) s =
      stopPolling { s with
        errorMessage :=
          some ("Error retrieving processed image: " ++ jsOrStr e.dataMessage e.message)
        statusMessage := "" } := by
    simp only [pollOnResponse, pollOnError]
    rw [if_neg (by omega), if_pos hcond]
  refine ⟨by rw [hres]; rfl, by rw [hres]; rfl, by rw [hres]; rfl, ?_⟩
  intro att reqs rest
  have hstopped : (PollerSt.mk (pollOnResponse a (PollResponse.failure e) s) att reqs).comp.pollInterval = none := by
    rw [hres]
    rfl
  rw [foldl_issueAndHandle_stopped rest _ hstopped]

/-- C3 witness: a 500 on attempt 3 of a live poll — the error is surfaced
at once, polling stops, and a pending environment response is never asked
for (the request log stays at attempts 1..3). -/
theorem C3_non404_error_stops_witness :
    (pollOnResponse 3
      (PollResponse.failure
        { isAxiosError := true, status := some 500, dataMessage := none,
          message := "Request failed with status code 500" }) pollingState).errorMessage =
      some ("Error retrieving processed image: " ++
        jsOrStr none "Request failed with status code 500") ∧
    (pollOnResponse 3
      (PollResponse.failure
        { isAxiosError := true, status := some 500, dataMessage := none,
          message := "Request failed with status code 500" }) pollingState).statusMessage = "" ∧
    (pollOnResponse 3
      (PollResponse.failure
        { isAxiosError := true, status := some 500, dataMessage := none,
          message := "Request failed with status code 500" }) pollingState).pollInterval = none ∧
    (([notFoundResp].foldl issueAndHandle
      { comp := pollOnResponse 3
          (PollResponse.failure
            { isAxiosError := true, status := some 500, dataMessage := none,
              message := "Request failed with status code 500" }) pollingState
        attempt := 3, requests := [1, 2, 3] }).requests = [1, 2, 3]) :=
  have h := C3_non404_error_stops pollingState 3
    { isAxiosError := true, status := some 500, dataMessage := none,
      message := "Request failed with status code 500" }
    (by decide) rfl (by decide)
  ⟨h.1, h.2.1, h.2.2.1, h.2.2.2 3 [1, 2, 3] [notFoundResp]⟩

/-- C6: selecting a file replaces the selection, clears the error, the
processed-image URL and the status text, resets progress to 0, cancels any
active polling timer (so at most one poll state can ever be live across any
sequence of selections), leaves only `isUploading` as it was, and issues no
network request. -/
theorem C6_selectFile_resets (s : ComponentState) (f : FileData) (rest : List FileData) :
    handleFileChange (f :: rest) s =
      ({ selectedFile := some f
         uploadProgress := 0
         isUploading := s.isUploading
         errorMessage := none
         processedImageUrl := none
         statusMessage := ""
         pollInterval := none }, []) := rfl

/-- C10: a change event with no file leaves every piece of component state
unchanged and issues no network request. -/
theorem C10_no_file_noop (s : ComponentState) :
    handleFileChange [] s = (s, []) := rfl

/-- Progress callbacks touch only `uploadProgress`; every other field of
the state survives any sequence of them. -/
theorem foldl_applyProgress_fields (l : List ProgressEvent) (s : ComponentState) :
    (l.foldl applyProgress s).selectedFile = s.selectedFile ∧
    (l.foldl applyProgress s).isUploading = s.isUploading ∧
    (l.foldl applyProgress s).errorMessage = s.errorMessage ∧
    (l.foldl applyProgress s).processedImageUrl = s.processedImageUrl ∧
    (l.foldl applyProgress s).statusMessage = s.statusMessage ∧
    (l.foldl applyProgress s).pollInterval = s.pollInterval := by
  induction l generalizing s with
  | nil => exact ⟨rfl, rfl, rfl, rfl, rfl, rfl⟩
  | cons ev t ih =>
    rw [List.foldl_cons]
    exact ih (applyProgress s ev)

/-- C4: each failed precondition of `handleUpload` — no selected file, a
missing/placeholder API Gateway URL, a missing/placeholder destination
bucket URL — returns immediately with exactly the corresponding error
message set, zero network events, and every other piece of state (progress,
poll timer, processed URL, status text, selection) untouched. -/
theorem C4_precondition_failures (cfg_api cfg_dest : Option String) (s : ComponentState)
    (presign : HttpResult PresignedUrlResponse) (progress : List ProgressEvent)
    (putRes : HttpResult Unit) :
    (s.selectedFile = none →
      handleUpload cfg_api cfg_dest s presign progress putRes =
        (.earlyReturn { s with errorMessage := some "Please select a file first." }, [])) ∧
    (s.selectedFile ≠ none → apiUrlInvalid cfg_api = true →
      handleUpload cfg_api cfg_dest s presign progress putRes =
        (.earlyReturn
          { s with errorMessage := some "Frontend is not configured with API Gateway URL." },
          [])) ∧
    (s.selectedFile ≠ none → apiUrlInvalid cfg_api = false → destUrlInvalid cfg_dest = true →
      handleUpload cfg_api cfg_dest s presign progress putRes =
        (.earlyReturn
          { s with errorMessage := some "Frontend is not configured with Destination Bucket URL." },
          [])) := by
  refine ⟨fun h => ?_, fun h hapi => ?_, fun h hapi hdest => ?_⟩
  · unfold handleUpload
    rw [h]
  · obtain ⟨f, hf⟩ := Option.ne_none_iff_exists'.mp h
    unfold handleUpload
    rw [hf]
    simp [hapi]
  · obtain ⟨f, hf⟩ := Option.ne_none_iff_exists'.mp h
    unfold handleUpload
    rw [hf]
    simp [hapi, hdest]

/-- C4 witness: the three rejection scenarios at concrete inputs. -/
theorem C4_precondition_failures_witness :
    handleUpload sampleApiUrl sampleDestUrl initialState (HttpResult.err notFound404) []
        (HttpResult.ok ()) =
      (.earlyReturn { initialState with errorMessage := some "Please select a file first." },
        []) ∧
    handleUpload none sampleDestUrl sampleReadyState (HttpResult.err notFound404) []
        (HttpResult.ok ()) =
      (.earlyReturn
        { sampleReadyState with
          errorMessage := some "Frontend is not configured with API Gateway URL." }, []) ∧
    handleUpload sampleApiUrl (some "https://your-destination-bucket-name.s3.amazonaws.com")
        sampleReadyState (HttpResult.err notFound404) [] (HttpResult.ok ()) =
      (.earlyReturn
        { sampleReadyState with
          errorMessage := some "Frontend is not configured with Destination Bucket URL." },
        []) :=
  ⟨(C4_precondition_failures sampleApiUrl sampleDestUrl initialState
      (HttpResult.err notFound404) [] (HttpResult.ok ())).1 rfl,
   (C4_precondition_failures none sampleDestUrl sampleReadyState
      (HttpResult.err notFound404) [] (HttpResult.ok ())).2.1 (by decide) rfl,
   (C4_precondition_failures sampleApiUrl
      (some "https://your-destination-bucket-name.s3.amazonaws.com") sampleReadyState
      (HttpResult.err notFound404) [] (HttpResult.ok ())).2.2 (by decide) (by decide)
      (by decide)⟩

/-- C7: if the `generate-upload-url` POST or the presigned PUT is rejected,
`handleUpload` lands in its catch block: the failure message is surfaced,
the status text cleared, the in-progress flag reset, the timer left
uninstalled, and no `get-processed-url` request is issued at all — polling
never starts for that attempt. -/
theorem C7_transport_failure_no_polling (cfg_api cfg_dest : Option String)
    (s : ComponentState) (f : FileData) (hf : s.selectedFile = some f)
    (hapi : apiUrlInvalid cfg_api = false) (hdest : destUrlInvalid cfg_dest = false) :
    (∀ (e : AxiosErr) (progress : List ProgressEvent) (putRes : HttpResult Unit),
      (handleUpload cfg_api cfg_dest s (HttpResult.err e) progress putRes).1.isFailed = true ∧
      (resultState
        (handleUpload cfg_api cfg_dest s (HttpResult.err e) progress putRes).1).errorMessage =
        some (uploadCatchMessage e) ∧
      (resultState
        (handleUpload cfg_api cfg_dest s (HttpResult.err e) progress putRes).1).statusMessage = "" ∧
      (resultState
        (handleUpload cfg_api cfg_dest s (HttpResult.err e) progress putRes).1).isUploading = false ∧
      (resultState
        (handleUpload cfg_api cfg_dest s (HttpResult.err e) progress putRes).1).pollInterval = none ∧
      ((handleUpload cfg_api cfg_dest s (HttpResult.err e) progress putRes).2).countP
        eventIsPollIssue = 0) ∧
    (∀ (pr : PresignedUrlResponse) (progress : List ProgressEvent) (e : AxiosErr),
      (handleUpload cfg_api cfg_dest s (HttpResult.ok pr) progress
        (HttpResult.err e)).1.isFailed = true ∧
      (resultState (handleUpload cfg_api cfg_dest s (HttpResult.ok pr) progress
        (HttpResult.err e)).1).errorMessage = some (uploadCatchMessage e) ∧
      (resultState (handleUpload cfg_api cfg_dest s (HttpResult.ok pr) progress
        (HttpResult.err e)).1).statusMessage = "" ∧
      (resultState (handleUpload cfg_api cfg_dest s (HttpResult.ok pr) progress
        (HttpResult.err e)).1).isUploading = false ∧
      (resultState (handleUpload cfg_api cfg_dest s (HttpResult.ok pr) progress
        (HttpResult.err e)).1).pollInterval = none ∧
      ((handleUpload cfg_api cfg_dest s (HttpResult.ok pr) progress
        (HttpResult.err e)).2).countP eventIsPollIssue = 0) := by
  constructor
  · intro e progress putRes
    unfold handleUpload
    rw [hf]
    simp [hapi, hdest, catchBlock, stopPolling, resultState, UploadPhaseResult.isFailed,
      eventIsPollIssue]
  · intro pr progress e
    unfold handleUpload
    rw [hf]
    simp [hapi, hdest, catchBlock, stopPolling, resultState, UploadPhaseResult.isFailed,
      eventIsPollIssue]

/-- C7 witness: a concrete rejected POST and a concrete rejected PUT. -/
theorem C7_transport_failure_no_polling_witness :
    ((handleUpload sampleApiUrl sampleDestUrl sampleReadyState
      (HttpResult.err err500) [] (HttpResult.ok ())).1.isFailed = true ∧
     (resultState (handleUpload sampleApiUrl sampleDestUrl sampleReadyState
      (HttpResult.err err500) [] (HttpResult.ok ())).1).errorMessage =
      some (uploadCatchMessage err500) ∧
     (resultState (handleUpload sampleApiUrl sampleDestUrl sampleReadyState
      (HttpResult.err err500) [] (HttpResult.ok ())).1).statusMessage = "" ∧
     (resultState (handleUpload sampleApiUrl sampleDestUrl sampleReadyState
      (HttpResult.err err500) [] (HttpResult.ok ())).1).isUploading = false ∧
     (resultState (handleUpload sampleApiUrl sampleDestUrl sampleReadyState
      (HttpResult.err err500) [] (HttpResult.ok ())).1).pollInterval = none ∧
     ((handleUpload sampleApiUrl sampleDestUrl sampleReadyState
      (HttpResult.err err500) [] (HttpResult.ok ())).2).countP eventIsPollIssue = 0) ∧
    ((handleUpload sampleApiUrl sampleDestUrl sampleReadyState
      (HttpResult.ok samplePresign) [{ loaded := 2, total := some 4 }]
      (HttpResult.err putBroke)).1.isFailed = true ∧
     (resultState (handleUpload sampleApiUrl sampleDestUrl sampleReadyState
      (HttpResult.ok samplePresign) [{ loaded := 2, total := some 4 }]
      (HttpResult.err putBroke)).1).errorMessage = some (uploadCatchMessage putBroke) ∧
     (resultState (handleUpload sampleApiUrl sampleDestUrl sampleReadyState
      (HttpResult.ok samplePresign) [{ loaded := 2, total := some 4 }]
      (HttpResult.err putBroke)).1).statusMessage = "" ∧
     (resultState (handleUpload sampleApiUrl sampleDestUrl sampleReadyState
      (HttpResult.ok samplePresign) [{ loaded := 2, total := some 4 }]
      (HttpResult.err putBroke)).1).isUploading = false ∧
     (resultState (handleUpload sampleApiUrl sampleDestUrl sampleReadyState
      (HttpResult.ok samplePresign) [{ loaded := 2, total := some 4 }]
      (HttpResult.err putBroke)).1).pollInterval = none ∧
     ((handleUpload sampleApiUrl sampleDestUrl sampleReadyState
      (HttpResult.ok samplePresign) [{ loaded := 2, total := some 4 }]
      (HttpResult.err putBroke)).2).countP eventIsPollIssue = 0) :=
  have h := C7_transport_failure_no_polling sampleApiUrl sampleDestUrl sampleReadyState
    sampleFile rfl (by decide) (by decide)
  ⟨h.1 err500 [] (HttpResult.ok ()),
   h.2 samplePresign [{ loaded := 2, total := some 4 }] putBroke⟩

/-- C8 counterexample: during a transfer whose transport reports no total
byte count, the source divides by the fallback `?? 1`, so a progress event
with 5 bytes sent drives Upload Progress to 500 — not an integer between 0
and 100 as the claim states. -/
theorem C8_progress_counterexample :
    (resultState (handleUpload sampleApiUrl sampleDestUrl sampleReadyState
      (HttpResult.ok samplePresign) [{ loaded := 5, total := none }]
      (HttpResult.ok ())).1).uploadProgress = 500 ∧
    ¬ ((resultState (handleUpload sampleApiUrl sampleDestUrl sampleReadyState
      (HttpResult.ok samplePresign) [{ loaded := 5, total := none }]
      (HttpResult.ok ())).1).uploadProgress ≤ 100) := by
  constructor
  · decide
  · decide

/-- C8 (amended): for every progress event whose byte total is known,
positive and at least the bytes sent, Upload Progress is the rounded
percentage `round(loaded * 100 / total)` and lies between 0 and 100; when
the total is unknown the code divides by the fallback 1 and the value may
exceed 100.  Progress is reset to 0 at the start of each new upload (state
reaching the transfer with no progress events yet delivered shows 0). -/
theorem C8_progress_amended (ev : ProgressEvent) (t : Nat)
    (ht : ev.total = some t) (h0 : 0 < t) (hle : ev.loaded ≤ t) :
    progressPercent ev = jsRound (ev.loaded * 100) t ∧
    progressPercent ev ≤ 100 ∧
    ∀ (cfg_api cfg_dest : Option String) (s : ComponentState) (f : FileData)
      (pr : PresignedUrlResponse),
      s.selectedFile = some f → apiUrlInvalid cfg_api = false →
      destUrlInvalid cfg_dest = false →
      (resultState (handleUpload cfg_api cfg_dest s (HttpResult.ok pr) []
        (HttpResult.ok ())).1).uploadProgress = 0 := by
  have hform : progressPercent ev = jsRound (ev.loaded * 100) t := by
    unfold progressPercent
    rw [ht]
    rfl
  refine ⟨hform, ?_, ?_⟩
  · rw [hform]
    unfold jsRound
    have hd : 0 < 2 * t := by omega
    have hmul : ev.loaded * 100 ≤ t * 100 := Nat.mul_le_mul_right 100 hle
    have hx : 2 * (ev.loaded * 100) + t < 101 * (2 * t) := by omega
    have hlt : (2 * (ev.loaded * 100) + t) / (2 * t) < 101 :=
      (Nat.div_lt_iff_lt_mul hd).mpr hx
    omega
  · intro cfg_api cfg_dest s f pr hf hapi hdest
    unfold handleUpload
    rw [hf]
    simp [hapi, hdest, resultState]

/-- C8 witness: 1 of 3 bytes sent rounds to 33 percent, within bounds, and
a fresh upload starts at 0 percent. -/
theorem C8_progress_amended_witness :
    progressPercent { loaded := 1, total := some 3 } = jsRound (1 * 100) 3 ∧
    progressPercent { loaded := 1, total := some 3 } ≤ 100 ∧
    (resultState (handleUpload sampleApiUrl sampleDestUrl sampleReadyState
      (HttpResult.ok samplePresign) [] (HttpResult.ok ())).1).uploadProgress = 0 :=
  have h := C8_progress_amended { loaded := 1, total := some 3 } 3 rfl (by decide) (by decide)
  ⟨h.1, h.2.1, h.2.2 sampleApiUrl sampleDestUrl sampleReadyState sampleFile samplePresign
    rfl (by decide) (by decide)⟩

/-- C9 (bug evidence): immediately after a successful transfer the source
issues the poll loop's first `get-processed-url` GET (fire-and-forget) and
then, in the same synchronous segment and before either can resolve, the
leftover inline step-3 block issues a second `get-processed-url` GET that it
awaits — so two status-poll requests are outstanding at once, where the
claim allows at most one.  The full event trace also shows the upload-side
POST and PUT strictly sequential (each completes before the next issue). -/
theorem C9_two_poll_requests_outstanding :
    countOutstandingPolls
      ((handleUpload sampleApiUrl sampleDestUrl sampleReadyState
        (HttpResult.ok samplePresign) [] (HttpResult.ok ())).2) = 2 ∧
    ((handleUpload sampleApiUrl sampleDestUrl sampleReadyState
        (HttpResult.ok samplePresign) [] (HttpResult.ok ())).2) =
      [NetEvent.issue (NetRequest.postGenerateUploadUrl "photo.jpg" "image/jpeg"),
       NetEvent.complete (NetRequest.postGenerateUploadUrl "photo.jpg" "image/jpeg"),
       NetEvent.issue (NetRequest.putUpload "https://store/x" "image/jpeg"),
       NetEvent.complete (NetRequest.putUpload "https://store/x" "image/jpeg"),
       NetEvent.issue (NetRequest.getProcessedUrl "abc123"),
       NetEvent.issue (NetRequest.getProcessedUrl "abc123")] := by
  constructor
  · decide
  · decide
